import Mathlib

/-!
Verification development for the offline TTS engine of the What_Docs
repository (src/client/src/hooks/useTTS.ts).

The embedding below translates the TTS hook's pure helpers directly
(WAV export, fallback beep, duration formula, voice table, cache key
hashing, markdown stripping) and models the stateful orchestration
(`speak`, `stop`, the IndexedDB-backed cache) as explicit state passing.
JavaScript numbers are modelled as exact rationals `ℚ`; 32-bit and
16-bit wrap-around (`hash |= 0`, `DataView.setInt16`) is made explicit
with `% 2^32` / `% 2^16` arithmetic.  Host effects that can fail
(AudioContext construction, offline rendering, playback, IndexedDB) are
driven by explicit boolean oracles in environment records, and the
irrational sample values produced by `Math.sin` / oscillator rendering
are supplied by oracle functions, since no claim depends on the actual
waveform shape.
-/

namespace WhatDocsTTS

/-! ## Byte-level primitives (DataView semantics)

`DataView.setUint16`/`setUint32` write little-endian and wrap modulo
2^16 / 2^32; `setInt16` converts via ToInt16 (truncation toward zero,
then wrap into two's complement).  A byte is modelled as a `ℕ` < 256. -/

/-- Little-endian bytes of a 16-bit unsigned write (wraps mod 2^16). -/
def u16le (v : ℕ) : List ℕ := [v % 256, v / 256 % 256]

/-- Little-endian bytes of a 32-bit unsigned write (wraps mod 2^32). -/
def u32le (v : ℕ) : List ℕ :=
  [v % 256, v / 256 % 256, v / 65536 % 256, v / 16777216 % 256]

/-- Bytes written by `writeString` (ASCII char codes). -/
def asciiBytes (s : String) : List ℕ := s.toList.map Char.toNat

/-- Little-endian bytes of a `setInt16` write: two's complement wrap. -/
def i16le (v : ℤ) : List ℕ := u16le (v % 65536).toNat

/-- Decode two little-endian bytes as a two's-complement 16-bit integer. -/
def i16dec (b0 b1 : ℕ) : ℤ :=
  if 32768 ≤ b0 + 256 * b1 then ((b0 + 256 * b1 : ℕ) : ℤ) - 65536
  else ((b0 + 256 * b1 : ℕ) : ℤ)

/-- JavaScript ToInt32 (used by `hash |= 0` and `<<`). -/
def toInt32 (n : ℤ) : ℤ := (n + 2147483648) % 4294967296 - 2147483648

/-- Truncation toward zero, the integer conversion ToInteger applies
before a `DataView.setInt16` store. -/
def truncRat (x : ℚ) : ℤ := if 0 ≤ x then ⌊x⌋ else -⌊-x⌋

/-- Concatenation of per-element lists, mirroring the nested write loops
of the source (a local stand-in for `List.flatMap`). -/
def listJoinMap (f : α → List β) : List α → List β
  | [] => []
  | a :: l => f a ++ listJoinMap f l

/-! ## AudioBuffer and the WAV encoder (`exportToWavArrayBuffer`) -/

/-- In-memory audio buffer as the Web Audio API presents it: a frame
count, a sample rate, and per-channel float sample access. -/
structure AudioBuffer where
  sampleRate : ℕ
  numberOfChannels : ℕ
  length : ℕ
  getChannelData : ℕ → ℕ → ℚ

/-- Clipping `Math.max(-1, Math.min(1, s))` applied before scaling. -/
def clipSample (x : ℚ) : ℚ := max (-1) (min 1 x)

/-- The float-to-int16 conversion of the encoder:
`view.setInt16(offset, Math.max(-1, Math.min(1, s)) * 0x7FFF, true)`. -/
def sampleToI16 (x : ℚ) : ℤ := truncRat (clipSample x * 32767)

/-- The interleaved data section of the produced WAV file: for each
frame, for each channel, the two little-endian bytes of the converted
sample (mirrors the nested `for` loops at the end of
`exportToWavArrayBuffer`). -/
def wavDataBytes (b : AudioBuffer) : List ℕ :=
  listJoinMap (fun i =>
    listJoinMap (fun ch => i16le (sampleToI16 (b.getChannelData ch i)))
      (List.range b.numberOfChannels))
    (List.range b.length)

/-- The 44 header bytes written by `exportToWavArrayBuffer` before the
sample data (RIFF / fmt / data chunks). -/
def wavHeaderBytes (b : AudioBuffer) : List ℕ :=
  let numOfChan := b.numberOfChannels
  let len := b.length * numOfChan * 2
  asciiBytes "RIFF" ++ u32le (36 + len) ++ asciiBytes "WAVE" ++
  asciiBytes "fmt " ++ u32le 16 ++ u16le 1 ++ u16le numOfChan ++
  u32le b.sampleRate ++ u32le (b.sampleRate * numOfChan * 2) ++
  u16le (numOfChan * 2) ++ u16le 16 ++ asciiBytes "data" ++ u32le len

/-- The WAV encoder `exportToWavArrayBuffer`: 44-byte header followed by
interleaved little-endian 16-bit samples. -/
def exportToWavArrayBuffer (b : AudioBuffer) : List ℕ :=
  wavHeaderBytes b ++ wavDataBytes b

/-- The samples of an AudioBuffer in the interleaved order in which the
encoder writes them. -/
def interleavedSamples (b : AudioBuffer) : List ℚ :=
  listJoinMap (fun i =>
    (List.range b.numberOfChannels).map (fun ch => b.getChannelData ch i))
    (List.range b.length)

/-- Read back the int16 sample stream of a WAV byte sequence: pair up
the bytes of the data section. -/
def decodeInt16Samples : List ℕ → List ℤ
  | b0 :: b1 :: rest => i16dec b0 b1 :: decodeInt16Samples rest
  | _ => []

/-- A compliant decoder: skip the 44-byte header, read little-endian
int16 words, and undo the documented `[-1,1] → int16` scaling by 0x7FFF. -/
def decodeWavSamples (bytes : List ℕ) : List ℚ :=
  (decodeInt16Samples (bytes.drop 44)).map (fun i => (i : ℚ) / 32767)

/-! ### Helper lemmas for the encoder -/

theorem listJoinMap_append (f : α → List β) (l₁ l₂ : List α) :
    listJoinMap f (l₁ ++ l₂) = listJoinMap f l₁ ++ listJoinMap f l₂ := by
  induction l₁ with
  | nil => rfl
  | cons a l ih => simp [listJoinMap, ih]

theorem listJoinMap_map (f : β → List γ) (g : α → β) (l : List α) :
    listJoinMap f (l.map g) = listJoinMap (fun a => f (g a)) l := by
  induction l with
  | nil => rfl
  | cons a l ih => simp [listJoinMap, ih]

theorem length_listJoinMap_const (f : α → List β) (k : ℕ) (l : List α)
    (h : ∀ a ∈ l, (f a).length = k) :
    (listJoinMap f l).length = l.length * k := by
  induction l with
  | nil => simp [listJoinMap]
  | cons a l ih =>
    simp only [listJoinMap, List.length_append, List.length_cons]
    rw [h a (by simp), ih (fun a ha => h a (by simp [ha]))]
    ring

theorem i16dec_i16le (v : ℤ) (h1 : -32768 ≤ v) (h2 : v ≤ 32767) :
    i16dec ((v % 65536).toNat % 256) ((v % 65536).toNat / 256 % 256) = v := by
  unfold i16dec
  split <;> omega

theorem decodeInt16_joinMap (f : ℚ → ℤ) (l : List ℚ)
    (h : ∀ x ∈ l, -32768 ≤ f x ∧ f x ≤ 32767) :
    decodeInt16Samples (listJoinMap (fun x => i16le (f x)) l) = l.map f := by
  induction l with
  | nil => rfl
  | cons a l ih =>
    have ha := h a (List.mem_cons_self a l)
    have htail := ih (fun x hx => h x (List.mem_cons_of_mem a hx))
    show i16dec ((f a % 65536).toNat % 256) ((f a % 65536).toNat / 256 % 256) ::
        decodeInt16Samples (listJoinMap (fun x => i16le (f x)) l) = _
    rw [htail, i16dec_i16le (f a) ha.1 ha.2, List.map_cons]

theorem wavDataBytes_eq_joinMap (b : AudioBuffer) :
    wavDataBytes b =
      listJoinMap (fun x => i16le (sampleToI16 x)) (interleavedSamples b) := by
  unfold wavDataBytes interleavedSamples
  induction List.range b.length with
  | nil => rfl
  | cons i l ih =>
    simp only [listJoinMap, listJoinMap_append, ih, listJoinMap_map]

theorem clipSample_mem (x : ℚ) : -1 ≤ clipSample x ∧ clipSample x ≤ 1 := by
  unfold clipSample
  constructor
  · exact le_max_left _ _
  · exact max_le (by norm_num) (min_le_left _ _)

theorem truncRat_le (x : ℚ) (h : 0 ≤ x) : (truncRat x : ℚ) ≤ x := by
  unfold truncRat
  rw [if_pos h]
  exact Int.floor_le x

theorem truncRat_err (x : ℚ) : |(truncRat x : ℚ) - x| < 1 := by
  unfold truncRat
  split
  · rw [abs_sub_lt_iff]
    constructor
    · linarith [Int.floor_le x]
    · linarith [Int.lt_floor_add_one x]
  · rw [abs_sub_lt_iff]
    push_cast
    constructor
    · linarith [Int.lt_floor_add_one (-x)]
    · linarith [Int.floor_le (-x)]

theorem sampleToI16_bounds (x : ℚ) :
    -32767 ≤ sampleToI16 x ∧ sampleToI16 x ≤ 32767 := by
  obtain ⟨hl, hr⟩ := clipSample_mem x
  unfold sampleToI16 truncRat
  split
  · constructor
    · have : (0 : ℤ) ≤ ⌊clipSample x * 32767⌋ := by
        apply Int.floor_nonneg.mpr
        assumption
      omega
    · have : ⌊clipSample x * 32767⌋ ≤ ⌊(32767 : ℚ)⌋ :=
        Int.floor_le_floor (by nlinarith)
      simpa using this
  · constructor
    · have : ⌊-(clipSample x * 32767)⌋ ≤ ⌊(32767 : ℚ)⌋ :=
        Int.floor_le_floor (by nlinarith)
      have h32 : ⌊(32767 : ℚ)⌋ = 32767 := by norm_num
      omega
    · have : (0 : ℤ) ≤ ⌊-(clipSample x * 32767)⌋ := by
        apply Int.floor_nonneg.mpr
        nlinarith
      omega

theorem sampleToI16_accurate (x : ℚ) :
    |(sampleToI16 x : ℚ) / 32767 - clipSample x| < 1 / 32767 := by
  have herr := truncRat_err (clipSample x * 32767)
  unfold sampleToI16
  have heq : (truncRat (clipSample x * 32767) : ℚ) / 32767 - clipSample x =
      ((truncRat (clipSample x * 32767) : ℚ) - clipSample x * 32767) / 32767 := by
    field_simp
    ring
  rw [heq, abs_div]
  rw [abs_of_pos (by norm_num : (0:ℚ) < 32767)]
  exact div_lt_div_of_pos_right herr (by norm_num)

/-! ## Fallback beep (`createFallbackBeep`)

The beep samples use `Math.sin`; since sine is irrational, the model
takes the sine evaluations from an oracle function `sinFn` (the claims
never depend on the actual sine values).  Everything else — the header,
sample count, fade envelope and int16 conversion — is translated
directly. -/

/-- Amplitude envelope of the beep: fade-in over the first 0.05 s,
fade-out over the last 0.05 s, 0.8 in between. -/
def beepAmplitude (sampleRate numSamples i : ℕ) : ℚ :=
  if (i : ℚ) < (5 : ℚ) / 100 * sampleRate then
    (i : ℚ) / ((5 : ℚ) / 100 * sampleRate)
  else if (numSamples : ℚ) - (5 : ℚ) / 100 * sampleRate < (i : ℚ) then
    ((numSamples : ℚ) - i) / ((5 : ℚ) / 100 * sampleRate)
  else (8 : ℚ) / 10

/-- The 0.5-second 440 Hz fallback tone `createFallbackBeep`:
`Math.floor(sampleRate * 0.5)` samples behind the same 44-byte WAV
header layout, each sample `sin(i * 440 * 2π / sampleRate)` (taken from
the `sinFn` oracle at the argument's exact rational multiple of π is
not representable, so `sinFn` receives the sample index) scaled by the
fade envelope and 0x7FFF. -/
def createFallbackBeep (sinFn : ℕ → ℚ) (sampleRate : ℕ) : List ℕ :=
  let numSamples := sampleRate / 2
  asciiBytes "RIFF" ++ u32le (36 + numSamples * 2) ++ asciiBytes "WAVE" ++
  asciiBytes "fmt " ++ u32le 16 ++ u16le 1 ++ u16le 1 ++
  u32le sampleRate ++ u32le (sampleRate * 2) ++ u16le 2 ++ u16le 16 ++
  asciiBytes "data" ++ u32le (numSamples * 2) ++
  listJoinMap (fun i =>
    i16le (truncRat (sinFn i * beepAmplitude sampleRate numSamples i * 32767)))
    (List.range numSamples)

/-! ## Duration formula and frame clamp (`calculateDuration`) -/

/-- Speech duration heuristic: `((text.length / 5) / 150) * 60 / rate`
seconds (150 words per minute, 5 characters per word). -/
def calculateDuration (text : String) (rate : ℚ) : ℚ :=
  (text.length : ℚ) / 5 / 150 * 60 / rate

/-- `Math.ceil(duration * sampleRate)`, the requested frame count. -/
def frameCount (text : String) (rate : ℚ) (sampleRate : ℕ) : ℕ :=
  (⌈calculateDuration text rate * sampleRate⌉).toNat

/-- `Math.min(frameCount, 10 * sampleRate)`: the rendered length is
clamped to at most 10 seconds of audio. -/
def safeFrameCount (text : String) (rate : ℚ) (sampleRate : ℕ) : ℕ :=
  min (frameCount text rate sampleRate) (10 * sampleRate)

/-! ## Voice profile table (`getVoiceCharacteristics`) -/

/-- One formant entry of a voice profile (the source's `type` field is
called `shape` here because `type` is a Lean keyword). -/
structure Formant where
  frequency : ℚ
  gain : ℚ
  shape : String
deriving DecidableEq

/-- Acoustic parameters of a synthetic voice. -/
structure VoiceCharacteristics where
  baseFrequency : ℚ
  formants : List Formant
  emphasis : ℚ
  breathiness : ℚ
  syllableRate : ℚ
deriving DecidableEq

/-- `String.prototype.toLowerCase` restricted to its ASCII action (the
voice ids under comparison are all ASCII). -/
def jsLowerChar (c : Char) : Char :=
  if 65 ≤ c.toNat ∧ c.toNat ≤ 90 then Char.ofNat (c.toNat + 32) else c

/-- Lowercase a string, character by character. -/
def jsToLower (s : String) : String := String.mk (s.toList.map jsLowerChar)

/-- The designated default voice profile. -/
def defaultCharacteristics : VoiceCharacteristics :=
  { baseFrequency := 160
    formants := [⟨500, 1, "sine"⟩, ⟨1500, 1/2, "sine"⟩, ⟨2500, 1/4, "sine"⟩]
    emphasis := 12/10
    breathiness := 1/10
    syllableRate := 4 }

/-- Voice-profile lookup: `switch (voiceId.toLowerCase())` over the six
built-in ids, falling through to the default profile. -/
def getVoiceCharacteristics (voiceId : String) : VoiceCharacteristics :=
  match jsToLower voiceId with
  | "alloy" =>
    { baseFrequency := 175
      formants := [⟨600, 1, "sine"⟩, ⟨1400, 6/10, "sine"⟩, ⟨2400, 4/10, "sine"⟩]
      emphasis := 11/10
      breathiness := 15/100
      syllableRate := 42/10 }
  | "echo" =>
    { baseFrequency := 120
      formants := [⟨500, 1, "sine"⟩, ⟨1500, 4/10, "sine"⟩, ⟨2200, 2/10, "sine"⟩]
      emphasis := 14/10
      breathiness := 5/100
      syllableRate := 38/10 }
  | "fable" =>
    { baseFrequency := 140
      formants := [⟨550, 1, "sine"⟩, ⟨1600, 5/10, "sine"⟩, ⟨2300, 3/10, "sine"⟩]
      emphasis := 15/10
      breathiness := 1/10
      syllableRate := 4 }
  | "onyx" =>
    { baseFrequency := 110
      formants := [⟨450, 1, "sine"⟩, ⟨1300, 4/10, "sine"⟩, ⟨2100, 15/100, "sine"⟩]
      emphasis := 16/10
      breathiness := 5/100
      syllableRate := 35/10 }
  | "nova" =>
    { baseFrequency := 200
      formants := [⟨650, 1, "sine"⟩, ⟨1700, 6/10, "sine"⟩, ⟨2500, 4/10, "sine"⟩]
      emphasis := 13/10
      breathiness := 2/10
      syllableRate := 44/10 }
  | "shimmer" =>
    { baseFrequency := 220
      formants := [⟨700, 1, "sine"⟩, ⟨1800, 7/10, "sine"⟩, ⟨2600, 5/10, "sine"⟩]
      emphasis := 12/10
      breathiness := 25/100
      syllableRate := 43/10 }
  | _ => defaultCharacteristics

/-! ## The synthesizer (`synthesizeTextToAudio`)

The function's control flow — outer try/catch, inner try/catch around
`offlineCtx.startRendering()`, innermost try/catch around the WAV
export — is modelled with an explicit `Except` and a `jsTry` combinator.
Which effectful steps throw is driven by boolean oracles in `SynthEnv`;
the samples produced by the offline render come from the `renderedData`
oracle (the oscillator/gain-envelope program only
influences those sample values, which no claim inspects). -/

/-- The JavaScript exceptions that can arise inside the synthesizer. -/
inductive JsError where
  | audioContextError
  | setupError
  | renderError
  | exportError
deriving DecidableEq

/-- Host-environment oracle for one synthesizer invocation. -/
structure SynthEnv where
  /-- `ctx.sampleRate` of the constructed AudioContext. -/
  sampleRate : ℕ
  /-- Does `new AudioContext()` succeed? -/
  audioContextOk : Bool
  /-- Do the OfflineAudioContext/oscillator/gain setup steps succeed? -/
  setupOk : Bool
  /-- Does `offlineCtx.startRendering()` resolve? -/
  renderOk : Bool
  /-- Does the WAV export complete (false models an exogenous
  allocation failure inside the export call)? -/
  exportOk : Bool
  /-- Samples of the rendered buffer (mono), indexed by frame. -/
  renderedData : ℕ → ℚ
  /-- Oracle for `Math.sin` evaluations of the beep generator. -/
  sinFn : ℕ → ℚ

/-- A JavaScript try/catch over `Except`. -/
def jsTry (body : Except JsError α) (handler : JsError → Except JsError α) :
    Except JsError α :=
  match body with
  | Except.ok a => Except.ok a
  | Except.error e => handler e

/-- Throw `e` unless the oracle says the step succeeds. -/
def jsStep (ok : Bool) (e : JsError) : Except JsError Unit :=
  if ok then Except.ok () else Except.error e

/-- The mono AudioBuffer produced by `offlineCtx.startRendering()`:
`safeFrameCount` frames at the context's sample rate. -/
def renderedBuffer (env : SynthEnv) (text : String) (rate : ℚ) : AudioBuffer :=
  { sampleRate := env.sampleRate
    numberOfChannels := 1
    length := safeFrameCount text rate env.sampleRate
    getChannelData := fun _ i => env.renderedData i }

/-- `synthesizeTextToAudio(text, voice, rate)`: duration calculation,
clamped offline render, WAV export, with the beep fallback on
render/export failure and a bare 44-byte buffer (44 zero bytes) from
the outermost catch. -/
def synthesizeTextToAudio (env : SynthEnv) (text voice : String)
    (rate : ℚ) : Except JsError (List ℕ) :=
  jsTry
    (do
      -- new AudioContext()
      jsStep env.audioContextOk JsError.audioContextError
      -- duration / frame count / clamp (lines 109-114)
      -- OfflineAudioContext, oscillator, gain and envelope setup;
      -- getVoiceCharacteristics never throws, the setup steps may
      let _ := getVoiceCharacteristics voice
      jsStep env.setupOk JsError.setupError
      -- inner try around offlineCtx.startRendering()
      jsTry
        (do
          let rendered ←
            if env.renderOk then Except.ok (renderedBuffer env text rate)
            else Except.error JsError.renderError
          -- innermost try around exportToWavArrayBuffer
          jsTry
            (do
              jsStep env.exportOk JsError.exportError
              Except.ok (exportToWavArrayBuffer rendered))
            (fun _ => Except.ok (createFallbackBeep env.sinFn env.sampleRate)))
        (fun _ => Except.ok (createFallbackBeep env.sinFn env.sampleRate)))
    (fun _ => Except.ok (List.replicate 44 0))

/-! ## Markdown stripping (the `cleanText` pipeline of `speak`)

Each JavaScript `String.replace(/…/g, …)` is modelled as a left-to-right
scan (`globalReplace`) with a per-regex leftmost-match attempt.  The
lazy quantifiers of the source's regexes reduce to deterministic
shortest-match scans here (the `.` classes exclude `\n`, which makes
backtracking irrelevant — see the comments on each matcher). -/

/-- The JavaScript `\s` character class (whitespace as used by the
regexes and by `String.prototype.trim`). -/
def isJsSpace (c : Char) : Bool :=
  c == ' ' || c == '\t' || c == '\n' || c == '\r' || c.val == 11 ||
  c.val == 12 || c.val == 0xa0 || c.val == 0x1680 ||
  (0x2000 ≤ c.val && c.val ≤ 0x200a) || c.val == 0x2028 ||
  c.val == 0x2029 || c.val == 0x202f || c.val == 0x205f ||
  c.val == 0x3000 || c.val == 0xfeff

/-- Global-replace driver: at each position attempt the matcher; on a
match emit its replacement and continue after the consumed prefix, else
keep one character and move on.  Fuel (the input length) bounds the
recursion; every matcher consumes at least one character, so the fuel
is never exhausted on a real input. -/
def globalReplace (tm : List Char → Option (List Char × List Char)) :
    ℕ → List Char → List Char
  | _, [] => []
  | 0, cs => cs
  | fuel + 1, c :: cs =>
    match tm (c :: cs) with
    | some (rep, rest) => rep ++ globalReplace tm fuel rest
    | none => c :: globalReplace tm fuel cs

/-- Run a global replace with the canonical fuel. -/
def runReplace (tm : List Char → Option (List Char × List Char))
    (s : List Char) : List Char :=
  globalReplace tm s.length s

/-- Suffix following the first occurrence of three consecutive
backticks, if any. -/
def findFence : List Char → Option (List Char)
  | '`' :: '`' :: '`' :: rest => some rest
  | _ :: rest => findFence rest
  | [] => none

/-- Matcher for `/```[\s\S]*?```/g` (code blocks → removed): three
backticks, then the lazy any-character scan to the next three
backticks. -/
def tmCodeFence : List Char → Option (List Char × List Char)
  | '`' :: '`' :: '`' :: rest =>
    match findFence rest with
    | some after => some ([], after)
    | none => none
  | _ => none

/-- Suffix following the first backtick, if any. -/
def findBacktick : List Char → Option (List Char)
  | '`' :: rest => some rest
  | _ :: rest => findBacktick rest
  | [] => none

/-- Matcher for `` /`[^`]*`/g `` (inline code → removed). -/
def tmInlineCode : List Char → Option (List Char × List Char)
  | '`' :: rest => (findBacktick rest).map (fun after => ([], after))
  | _ => none

/-- Scan of `.*?\]\(`: stops right after the earliest `](`; fails on a
newline (`.` does not match `\n`) or end of input. -/
def scanToBracketParen : List Char → Option (List Char)
  | ']' :: '(' :: rest => some rest
  | '\n' :: _ => none
  | _ :: rest => scanToBracketParen rest
  | [] => none

/-- Scan of `.*?\)`: stops right after the earliest `)`; fails on a
newline or end of input. -/
def scanToParen : List Char → Option (List Char)
  | ')' :: rest => some rest
  | '\n' :: _ => none
  | _ :: rest => scanToParen rest
  | [] => none

/-- Matcher for `/!\[.*?\]\(.*?\)/g` (image markdown → removed).  A
failed attempt cannot be rescued by backtracking onto a later `](`:
the first `.*?` cannot cross a newline either, and any `)` visible from
a later `](` before the blocking newline would already have been the
earliest `)` of the first attempt. -/
def tmImage : List Char → Option (List Char × List Char)
  | '!' :: '[' :: rest =>
    match scanToBracketParen rest with
    | some rest2 => (scanToParen rest2).map (fun after => ([], after))
    | none => none
  | _ => none

/-- Matcher for `/\[([^\]]+)\]\([^)]+\)/g` (keep link text, drop URL).
The greedy `[^\]]+` is forced to the maximal run because the next
pattern character `]` is excluded from the class; likewise `[^)]+`. -/
def tmLink : List Char → Option (List Char × List Char)
  | '[' :: rest =>
    let inner := rest.takeWhile (fun c => c != ']')
    if inner.isEmpty then none
    else
      match rest.drop inner.length with
      | ']' :: '(' :: rest3 =>
        let url := rest3.takeWhile (fun c => c != ')')
        if url.isEmpty then none
        else
          match rest3.drop url.length with
          | ')' :: after => some (inner, after)
          | _ => none
      | _ => none
  | _ => none

/-- Matcher for `/#{1,6}\s+/g` (heading markers → removed).  A run of
more than six `#` cannot match at its start (every shorter greedy
attempt is followed by another `#`, not whitespace), so the driver
simply advances into the run, exactly as the JavaScript engine does. -/
def tmHeading : List Char → Option (List Char × List Char)
  | '#' :: rest =>
    let hashes := rest.takeWhile (fun c => c == '#')
    if hashes.length + 1 ≤ 6 then
      let rest2 := rest.drop hashes.length
      let sp := rest2.takeWhile isJsSpace
      if sp.isEmpty then none else some ([], rest2.drop sp.length)
    else none
  | _ => none

/-- Matcher for ``/\*\*|\*|__|_|~~|`/g`` (emphasis/strike/backtick
characters → removed), alternatives tried in source order. -/
def tmEmphasis : List Char → Option (List Char × List Char)
  | '*' :: '*' :: rest => some ([], rest)
  | '*' :: rest => some ([], rest)
  | '_' :: '_' :: rest => some ([], rest)
  | '_' :: rest => some ([], rest)
  | '~' :: '~' :: rest => some ([], rest)
  | '`' :: rest => some ([], rest)
  | _ => none

/-- Matcher for `/\n\s*[-*+]\s+/g` (list items → `'. '`).  The greedy
`\s*` is forced to the maximal whitespace run (a bullet is not
whitespace), and `\s+` requires at least one trailing whitespace. -/
def tmBullet : List Char → Option (List Char × List Char)
  | '\n' :: rest =>
    let sp := rest.takeWhile isJsSpace
    match rest.drop sp.length with
    | c :: rest3 =>
      if c == '-' || c == '*' || c == '+' then
        let sp2 := rest3.takeWhile isJsSpace
        if sp2.isEmpty then none
        else some (['.', ' '], rest3.drop sp2.length)
      else none
    | [] => none
  | _ => none

/-- Matcher for `/\n\s*\d+\.\s+/g` (numbered list items → `'. '`). -/
def tmNumbered : List Char → Option (List Char × List Char)
  | '\n' :: rest =>
    let sp := rest.takeWhile isJsSpace
    let rest2 := rest.drop sp.length
    let digits := rest2.takeWhile (fun c => c.isDigit)
    if digits.isEmpty then none
    else
      match rest2.drop digits.length with
      | '.' :: rest3 =>
        let sp2 := rest3.takeWhile isJsSpace
        if sp2.isEmpty then none
        else some (['.', ' '], rest3.drop sp2.length)
      | _ => none
  | _ => none

/-- Matcher for `/\s{2,}/g` (whitespace runs → single space). -/
def tmWsCollapse : List Char → Option (List Char × List Char)
  | c :: rest =>
    if isJsSpace c then
      let sp := rest.takeWhile isJsSpace
      if sp.isEmpty then none else some ([' '], rest.drop sp.length)
    else none
  | [] => none

/-- `String.prototype.trim`: strip whitespace from both ends. -/
def jsTrim (cs : List Char) : List Char :=
  ((cs.dropWhile isJsSpace).reverse.dropWhile isJsSpace).reverse

/-- The full markdown-stripping pipeline of `speak` (lines 620-630),
replacements applied in source order, then trimmed. -/
def cleanMarkdown (text : String) : String :=
  let s := text.toList
  let s := runReplace tmCodeFence s
  let s := runReplace tmInlineCode s
  let s := runReplace tmImage s
  let s := runReplace tmLink s
  let s := runReplace tmHeading s
  let s := runReplace tmEmphasis s
  let s := runReplace tmBullet s
  let s := runReplace tmNumbered s
  let s := runReplace tmWsCollapse s
  String.mk (jsTrim s)

/-! ## Cache key (`generateCacheKey`) -/

/-- The rolling hash `hash = ((hash << 5) - hash) + charCode; hash |= 0`
over the text's characters, in exact 32-bit arithmetic (`<<` itself
operates on ToInt32 values). -/
def jsHash (text : String) : ℤ :=
  text.toList.foldl (fun h c => toInt32 (toInt32 (h * 32) - h + c.toNat)) 0

/-- Cache key: voice id, the hash, and the first 20 characters of the
text, joined by underscores. -/
def generateCacheKey (text voice : String) : String :=
  voice ++ "_" ++ toString (jsHash text) ++ "_" ++
  String.mk (text.toList.take 20)

/-! ## Persistent audio cache (IndexedDB model)

The `audioCache` object store (keyPath `key`) is modelled as an
association list in which `put` replaces the record with the same key;
the `ttsStats` store is an append-only list.  Read/write failures —
swallowed by the source — are driven by oracles. -/

/-- One record of the `audioCache` store. -/
structure CacheEntry where
  timestamp : ℤ
  voice : String
  textLength : ℕ
  audioData : List ℕ
deriving DecidableEq

/-- One record of the `ttsStats` store. -/
structure StatRecord where
  date : ℤ
  voice : String
  textLength : ℕ
  generated : Bool
deriving DecidableEq

/-- `store.get(key)`: first record with the given key, if any. -/
def lookupEntry (key : String) (entries : List (String × CacheEntry)) :
    Option CacheEntry :=
  (entries.find? (fun p => p.1 == key)).map (fun p => p.2)

/-- `store.put(item)` with keyPath `key`: replaces the record with the
same key (or inserts). -/
def putEntry (key : String) (e : CacheEntry)
    (entries : List (String × CacheEntry)) : List (String × CacheEntry) :=
  (key, e) :: entries.filter (fun p => p.1 != key)

/-- `getFromCache(cacheKey)`: absent when the database is missing, the
read fails, there is no record, or the record's age reaches the 14-day
retention window; the store itself is never modified by a read. -/
def getFromCache (readOk : Bool) (db : Option (List (String × CacheEntry)))
    (key : String) (now : ℤ) : Option (List ℕ) :=
  match db with
  | none => none
  | some entries =>
    if readOk then
      match lookupEntry key entries with
      | some e =>
        if now - e.timestamp < 14 * 24 * 60 * 60 * 1000 then some e.audioData
        else none
      | none => none
    else none

/-! ## Orchestrator state (`useTTS`) -/

/-- The HTML audio element used for playback. -/
structure AudioElement where
  src : Option (List ℕ)
  paused : Bool
  currentTime : ℚ
deriving DecidableEq

/-- Observable state of the hook plus the persistent stores and the
native speech engine's in-flight flag. -/
structure OrchestratorState where
  cacheDB : Option (List (String × CacheEntry))
  stats : List StatRecord
  audio : AudioElement
  nativeSpeaking : Bool
  isSpeaking : Bool
  isLoading : Bool
  error : Option String
deriving DecidableEq

/-- The `TTSOptions` argument of the hook. -/
structure TTSOptions where
  enabled : Bool
  voice : String
  rate : ℚ

/-- Host-environment oracle for one `speak` invocation. -/
structure SpeakEnv where
  /-- `Date.now()` at the time of the call. -/
  now : ℤ
  /-- Does the IndexedDB read succeed? -/
  cacheReadOk : Bool
  /-- Does the IndexedDB write transaction succeed? -/
  cacheWriteOk : Bool
  /-- Does `audioRef.current.play()` resolve? -/
  playOk : Bool
  /-- Is `window.speechSynthesis` present? -/
  hasNativeSynth : Bool
  /-- Oracle for the synthesizer invocation. -/
  synth : SynthEnv

/-- Events observable in a `speak` flow, in order. -/
inductive Action where
  | stopped
  | cacheRead (key : String)
  | cacheWrite (key : String)
  | synthesisInvoked (text voice : String)
  | playRequested (bytes : List ℕ)
  | nativeUtterance (text : String)
deriving DecidableEq

/-- `stop()`: pause the audio element, reset its position, cancel any
in-flight native utterance, and clear `isSpeaking` (the `onpause`
handler also clears it). -/
def stopPlayback (st : OrchestratorState) : OrchestratorState :=
  { st with
      audio := { st.audio with paused := true, currentTime := 0 }
      nativeSpeaking := false
      isSpeaking := false }

/-- `saveToCache(cacheKey, audioData, text, voice)`: best-effort put of
the audio record plus a usage-stat append; failures (missing database
or failed transaction) are swallowed. -/
def saveToCache (writeOk : Bool) (st : OrchestratorState) (key : String)
    (audioData : List ℕ) (text voice : String) (now : ℤ) :
    OrchestratorState :=
  match st.cacheDB with
  | none => st
  | some entries =>
    if writeOk then
      { st with
          cacheDB := some (putEntry key
            { timestamp := now, voice := voice,
              textLength := text.length, audioData := audioData } entries)
          stats := st.stats ++
            [{ date := now, voice := voice, textLength := text.length,
               generated := true }] }
    else st

/-- `playAudioBuffer(audioData)`: point the audio element at the bytes
and start playback; on failure set the error, clear `isSpeaking`, and
(when a native engine exists) speak the fixed apology utterance. -/
def playAudioBuffer (env : SpeakEnv) (st : OrchestratorState)
    (bytes : List ℕ) : OrchestratorState × List Action :=
  let st1 := { st with audio := { st.audio with src := some bytes } }
  if env.playOk then
    let stPlaying := { st1 with
        audio := { st1.audio with paused := false }
        isSpeaking := true }
    (stPlaying, [Action.playRequested bytes])
  else
    let st2 := { st1 with
        error := some "Failed to play audio. Try again or check browser settings."
        isSpeaking := false }
    if env.hasNativeSynth then
      ({ st2 with nativeSpeaking := true },
        [Action.playRequested bytes,
          Action.nativeUtterance "Audio playback failed. Using fallback voice."])
    else (st2, [Action.playRequested bytes])

/-- `useBrowserTTS(text)`: delegate to the native speech engine (voice
selection heuristics do not affect the modelled state), or record the
terminal error when no engine exists. -/
def useBrowserTTS (env : SpeakEnv) (st : OrchestratorState)
    (text : String) : OrchestratorState × List Action :=
  if env.hasNativeSynth then
    ({ st with nativeSpeaking := true, isSpeaking := true },
      [Action.nativeUtterance text])
  else
    ({ st with error := some "Speech synthesis not available" }, [])

/-- `speak(text)`: the full orchestration — enabled/available guard,
implicit `stop()`, markdown stripping with the silent empty no-op,
cache lookup, synthesis + cache write on miss, playback, and the
browser-TTS fallback tier.  The returned action list is the ordered
trace of observable events.  (The outermost catch of the source is
unreachable here because every modelled stage resolves; the
synthesizer's error branch mirrors the inner catch.) -/
def speak (env : SpeakEnv) (options : TTSOptions) (available : Bool)
    (st : OrchestratorState) (text : String) :
    OrchestratorState × List Action :=
  if !options.enabled || !available then (st, [])
  else
    let st1 := stopPlayback st
    let cleanText := cleanMarkdown text
    if cleanText = "" then (st1, [Action.stopped])
    else
      let st2 := { st1 with error := none }
      let cacheKey := generateCacheKey cleanText options.voice
      match getFromCache env.cacheReadOk st2.cacheDB cacheKey env.now with
      | some cachedAudio =>
        let p := playAudioBuffer env st2 cachedAudio
        ({ p.1 with isLoading := false },
          Action.stopped :: Action.cacheRead cacheKey :: p.2)
      | none =>
        match synthesizeTextToAudio env.synth cleanText options.voice
            options.rate with
        | Except.ok audioData =>
          let st3 := saveToCache env.cacheWriteOk st2 cacheKey audioData
            cleanText options.voice env.now
          let p := playAudioBuffer env st3 audioData
          ({ p.1 with isLoading := false },
            Action.stopped :: Action.cacheRead cacheKey ::
              Action.synthesisInvoked cleanText options.voice ::
              Action.cacheWrite cacheKey :: p.2)
        | Except.error _ =>
          let p := useBrowserTTS env st2 cleanText
          ({ p.1 with isLoading := false },
            Action.stopped :: Action.cacheRead cacheKey ::
              Action.synthesisInvoked cleanText options.voice :: p.2)

/-- The bytes handed to the audio element by a trace (first
`playRequested` event), if any. -/
def playedPayload : List Action → Option (List ℕ)
  | [] => none
  | Action.playRequested b :: _ => some b
  | _ :: rest => playedPayload rest

/-- Number of synthesizer invocations recorded in a trace. -/
def synthesisCount (acts : List Action) : ℕ :=
  acts.countP (fun a =>
    match a with
    | Action.synthesisInvoked _ _ => true
    | _ => false)

/-! ## General lemmas about the embedded operations -/

theorem exportToWav_length (b : AudioBuffer) :
    (exportToWavArrayBuffer b).length =
      44 + 2 * (b.numberOfChannels * b.length) := by
  unfold exportToWavArrayBuffer
  rw [List.length_append]
  have h1 : (wavHeaderBytes b).length = 44 := rfl
  have h2 : (wavDataBytes b).length = b.length * (b.numberOfChannels * 2) := by
    unfold wavDataBytes
    rw [length_listJoinMap_const _ (b.numberOfChannels * 2) _ ?_]
    · rw [List.length_range]
    · intro i _
      rw [length_listJoinMap_const _ 2 _ ?_, List.length_range]
      intro ch _
      rfl
  rw [h1, h2]
  ring

theorem exportToWav_decode (b : AudioBuffer) :
    decodeInt16Samples ((exportToWavArrayBuffer b).drop 44) =
      (interleavedSamples b).map sampleToI16 := by
  have h : (exportToWavArrayBuffer b).drop 44 = wavDataBytes b := rfl
  rw [h, wavDataBytes_eq_joinMap]
  refine decodeInt16_joinMap sampleToI16 _ (fun x _ => ⟨?_, (sampleToI16_bounds x).2⟩)
  have := (sampleToI16_bounds x).1
  omega

theorem wavHeader_riff (b : AudioBuffer) :
    (exportToWavArrayBuffer b).take 4 = [82, 73, 70, 70] := rfl

theorem wavHeader_waveFmt (b : AudioBuffer) :
    ((exportToWavArrayBuffer b).drop 8).take 8 =
      [87, 65, 86, 69, 102, 109, 116, 32] := rfl

theorem wavHeader_pcmTag (b : AudioBuffer) :
    ((exportToWavArrayBuffer b).drop 20).take 2 = [1, 0] := rfl

theorem wavHeader_channels (b : AudioBuffer) :
    ((exportToWavArrayBuffer b).drop 22).take 2 = u16le b.numberOfChannels := rfl

theorem wavHeader_sampleRate (b : AudioBuffer) :
    ((exportToWavArrayBuffer b).drop 24).take 4 = u32le b.sampleRate := rfl

theorem wavHeader_bitDepth (b : AudioBuffer) :
    ((exportToWavArrayBuffer b).drop 34).take 2 = [16, 0] := rfl

theorem wavHeader_dataTag (b : AudioBuffer) :
    ((exportToWavArrayBuffer b).drop 36).take 4 = [100, 97, 116, 97] := rfl

theorem wavHeader_dataLen (b : AudioBuffer) :
    ((exportToWavArrayBuffer b).drop 40).take 4 =
      u32le (b.length * b.numberOfChannels * 2) := rfl

/-- C1: the claim's 44-byte RIFF/WAVE PCM layout and determinism hold,
but its 1/32768 round-trip tolerance is too tight.  This theorem proves
the amended form: the header layout facts, the exact int16 stream
recovered by a compliant decoder, and a strict 1/32767 per-sample bound
(the conversion truncates toward zero rather than rounding, so the
worst-case error approaches one least-significant bit, 1/32767, and can
exceed 1/32768).  Purity/determinism is inherent: the encoder is a
function of the buffer alone. -/
theorem claim_C1_amended (b : AudioBuffer) :
    (exportToWavArrayBuffer b).length = 44 + 2 * (b.numberOfChannels * b.length)
    ∧ (exportToWavArrayBuffer b).take 4 = [82, 73, 70, 70]
    ∧ ((exportToWavArrayBuffer b).drop 8).take 8 =
        [87, 65, 86, 69, 102, 109, 116, 32]
    ∧ ((exportToWavArrayBuffer b).drop 20).take 2 = [1, 0]
    ∧ ((exportToWavArrayBuffer b).drop 22).take 2 = u16le b.numberOfChannels
    ∧ ((exportToWavArrayBuffer b).drop 24).take 4 = u32le b.sampleRate
    ∧ ((exportToWavArrayBuffer b).drop 34).take 2 = [16, 0]
    ∧ ((exportToWavArrayBuffer b).drop 36).take 4 = [100, 97, 116, 97]
    ∧ ((exportToWavArrayBuffer b).drop 40).take 4 =
        u32le (b.length * b.numberOfChannels * 2)
    ∧ decodeInt16Samples ((exportToWavArrayBuffer b).drop 44) =
        (interleavedSamples b).map sampleToI16
    ∧ ∀ x : ℚ, |(sampleToI16 x : ℚ) / 32767 - clipSample x| < 1 / 32767 :=
  ⟨exportToWav_length b, wavHeader_riff b, wavHeader_waveFmt b,
    wavHeader_pcmTag b, wavHeader_channels b, wavHeader_sampleRate b,
    wavHeader_bitDepth b, wavHeader_dataTag b, wavHeader_dataLen b,
    exportToWav_decode b, sampleToI16_accurate⟩

/-- C1 witness: the amended theorem evaluated at a concrete one-sample
mono buffer. -/
theorem claim_C1_witness :
    (exportToWavArrayBuffer (AudioBuffer.mk 8 1 1 (fun _ _ => 1/2))).length =
      44 + 2 * (1 * 1) :=
  (claim_C1_amended (AudioBuffer.mk 8 1 1 (fun _ _ => 1/2))).1

/-- C1 counterexample: the claim's 1/32768 tolerance fails.  For the
one-sample buffer with value 65535/2147418112 (= (1 - 2⁻¹⁶)/32767, in
[-1,1] so clipping is the identity), the encoder truncates the scaled
sample 65535/65536 to 0, and the decoded value 0 differs from the input
by more than 1/32768. -/
theorem claim_C1_counterexample :
    ¬ (|(decodeWavSamples (exportToWavArrayBuffer
          (AudioBuffer.mk 44100 1 1 (fun _ _ => 65535/2147418112)))).headD 0 -
        clipSample (65535/2147418112)| ≤ 1/32768) := by
  have h : (decodeWavSamples (exportToWavArrayBuffer
      (AudioBuffer.mk 44100 1 1 (fun _ _ => 65535/2147418112)))).headD 0 = 0 := by
    norm_num [decodeWavSamples, exportToWavArrayBuffer, wavHeaderBytes,
      wavDataBytes, listJoinMap, i16le, u16le, sampleToI16, clipSample,
      truncRat, asciiBytes, u32le, decodeInt16Samples, i16dec]
  rw [h, clipSample, min_eq_right (by norm_num), max_eq_right (by norm_num),
    zero_sub, abs_neg, abs_of_nonneg (by norm_num)]
  norm_num

/-- C2 counterexample: the claim that a rendering failure propagates
out of `synthesizeTextToAudio` is false.  With an environment in which
`startRendering` throws (all other steps fine), the synthesizer returns
`ok` — and returns precisely the private fallback beep, so the beep is
invoked from within the normal synthesis path, not only by the
orchestrator's fallback tier (whose catch delegates to browser TTS and
never calls `createFallbackBeep`). -/
theorem claim_C2_counterexample :
    (synthesizeTextToAudio
      (SynthEnv.mk 8 true true false true (fun _ => 0) (fun _ => 0))
      "Hello." "alloy" 1).isOk = true
    ∧ synthesizeTextToAudio
        (SynthEnv.mk 8 true true false true (fun _ => 0) (fun _ => 0))
        "Hello." "alloy" 1 =
      Except.ok (createFallbackBeep (fun _ => 0) 8) :=
  ⟨rfl, rfl⟩

/-- C2 (amended): if oscillator rendering throws, `synthesizeTextToAudio`
itself catches the exception (inner try/catch around `startRendering`)
and returns the 0.5-second 440 Hz fallback beep; nothing propagates to
the orchestrator. -/
theorem claim_C2_amended (env : SynthEnv) (text voice : String) (rate : ℚ)
    (h1 : env.audioContextOk = true) (h2 : env.setupOk = true)
    (h3 : env.renderOk = false) :
    synthesizeTextToAudio env text voice rate =
      Except.ok (createFallbackBeep env.sinFn env.sampleRate) := by
  unfold synthesizeTextToAudio jsStep
  rw [h1, h2, h3]
  rfl

/-- C2 witness: the amended theorem at a concrete render-failure
environment. -/
theorem claim_C2_witness :
    synthesizeTextToAudio
      (SynthEnv.mk 44100 true true false true (fun _ => 0) (fun _ => 1))
      "Hi there." "nova" 1 =
      Except.ok (createFallbackBeep (fun _ => 1) 44100) :=
  claim_C2_amended
    (SynthEnv.mk 44100 true true false true (fun _ => 0) (fun _ => 1))
    "Hi there." "nova" 1 rfl rfl rfl

/-- C3: the rendered buffer never exceeds 10 seconds of audio.  The
frame count is clamped to `10 * sampleRate`; when the duration formula
implies more than 10 seconds the clamp is exact; and on the fully
successful path the synthesizer still returns a WAV of the clamped
buffer (rather than raising an error), whose byte length matches the
clamped sample count. -/
theorem claim_C3 (text voice : String) (rate : ℚ) (sr : ℕ) (hr : 0 < rate) :
    safeFrameCount text rate sr ≤ 10 * sr
    ∧ (10 < calculateDuration text rate →
        safeFrameCount text rate sr = 10 * sr)
    ∧ ∀ env : SynthEnv, env.sampleRate = sr →
        env.audioContextOk = true → env.setupOk = true →
        env.renderOk = true → env.exportOk = true →
        synthesizeTextToAudio env text voice rate =
          Except.ok (exportToWavArrayBuffer (renderedBuffer env text rate))
        ∧ (renderedBuffer env text rate).length = safeFrameCount text rate sr
        ∧ (exportToWavArrayBuffer (renderedBuffer env text rate)).length =
            44 + 2 * safeFrameCount text rate sr := by
  refine ⟨min_le_right _ _, ?_, ?_⟩
  · intro h
    have hsr : (0 : ℚ) ≤ (sr : ℚ) := Nat.cast_nonneg sr
    have hmul : (10 : ℚ) * sr ≤ calculateDuration text rate * sr :=
      mul_le_mul_of_nonneg_right (le_of_lt h) hsr
    have hceil : (10 * sr : ℤ) ≤ ⌈calculateDuration text rate * sr⌉ := by
      have h10 : ((10 * sr : ℤ) : ℚ) = 10 * (sr : ℚ) := by push_cast; ring
      have := Int.le_ceil (calculateDuration text rate * (sr : ℚ))
      have hle : ((10 * sr : ℤ) : ℚ) ≤ ⌈calculateDuration text rate * sr⌉ := by
        rw [h10]
        linarith
      exact_mod_cast hle
    unfold safeFrameCount frameCount
    have : 10 * sr ≤ (⌈calculateDuration text rate * sr⌉).toNat := by omega
    omega
  · intro env hsr h1 h2 h3 h4
    refine ⟨?_, ?_, ?_⟩
    · unfold synthesizeTextToAudio jsStep
      rw [h1, h2, h3, h4]
      rfl
    · rw [renderedBuffer, hsr]
    · rw [exportToWav_length]
      rw [show (renderedBuffer env text rate).numberOfChannels = 1 from rfl]
      rw [show (renderedBuffer env text rate).length =
        safeFrameCount text rate env.sampleRate from rfl, hsr]
      ring

/-- C3 witness: a 2000-character text at rate 1 implies 160 seconds of
speech, yet the rendered frame count is exactly the 10-second clamp. -/
theorem claim_C3_witness :
    safeFrameCount (String.mk (List.replicate 2000 'a')) 1 8 ≤ 10 * 8
    ∧ safeFrameCount (String.mk (List.replicate 2000 'a')) 1 8 = 10 * 8 := by
  obtain ⟨h1, h2, _⟩ :=
    claim_C3 (String.mk (List.replicate 2000 'a')) "alloy" 1 8 (by norm_num)
  refine ⟨h1, h2 ?_⟩
  rw [calculateDuration]
  norm_num

/-- C9: `synthesizeTextToAudio` is total — every invocation returns
`ok`.  Failures before rendering (AudioContext construction or the
offline-context/oscillator setup) produce the bare 44-byte zero buffer
from the outermost catch; rendering or WAV-export failures produce the
0.5-second 440 Hz fallback beep. -/
theorem claim_C9 (env : SynthEnv) (text voice : String) (rate : ℚ) :
    ∃ bytes, synthesizeTextToAudio env text voice rate = Except.ok bytes
    ∧ (env.audioContextOk = false ∨ env.setupOk = false →
        bytes = List.replicate 44 0 ∧ bytes.length = 44)
    ∧ (env.audioContextOk = true → env.setupOk = true →
        env.renderOk = false →
        bytes = createFallbackBeep env.sinFn env.sampleRate)
    ∧ (env.audioContextOk = true → env.setupOk = true →
        env.renderOk = true → env.exportOk = false →
        bytes = createFallbackBeep env.sinFn env.sampleRate) := by
  obtain ⟨sr, cac, sok, rok, eok, rd, sf⟩ := env
  cases cac <;> cases sok <;> cases rok <;> cases eok <;>
    exact ⟨_, rfl, by simp, by simp, by simp⟩

/-- C9 witness: with AudioContext construction failing, the result is
the 44-byte silent payload. -/
theorem claim_C9_witness :
    ∃ bytes, synthesizeTextToAudio
        (SynthEnv.mk 8 false true true true (fun _ => 0) (fun _ => 0))
        "Hello." "echo" 1 = Except.ok bytes
      ∧ bytes = List.replicate 44 0 ∧ bytes.length = 44 := by
  obtain ⟨bytes, h1, h2, -, -⟩ :=
    claim_C9 (SynthEnv.mk 8 false true true true (fun _ => 0) (fun _ => 0))
      "Hello." "echo" 1
  exact ⟨bytes, h1, h2 (Or.inl rfl)⟩

/-- C5: with a stored record present, `getFromCache` treats it as
absent once its age exceeds the 14-day retention window and returns its
bytes while younger than 14 days; a read never modifies the store (the
model's `getFromCache` returns only the optional bytes), and the record
is overwritten by a later `put` for the same key. -/
theorem claim_C5 (entries : List (String × CacheEntry)) (key : String)
    (e e' : CacheEntry) (now : ℤ)
    (hfind : lookupEntry key entries = some e) :
    (14 * 24 * 60 * 60 * 1000 < now - e.timestamp →
      getFromCache true (some entries) key now = none)
    ∧ (now - e.timestamp < 14 * 24 * 60 * 60 * 1000 →
      getFromCache true (some entries) key now = some e.audioData)
    ∧ lookupEntry key (putEntry key e' entries) = some e' := by
  refine ⟨?_, ?_, ?_⟩
  · intro h
    simp only [getFromCache, if_true, hfind]
    rw [if_neg (by omega)]
  · intro h
    simp only [getFromCache, if_true, hfind]
    rw [if_pos h]
  · simp [lookupEntry, putEntry, List.find?]

/-- C5 witness: a 15-day-old entry is a miss, a 1-day-old entry a hit,
and a put replaces the record. -/
theorem claim_C5_witness :
    (getFromCache true
        (some [("k", CacheEntry.mk 0 "alloy" 2 [7])]) "k" 1296000000 = none)
    ∧ (getFromCache true
        (some [("k", CacheEntry.mk 1209600000 "alloy" 2 [7])]) "k" 1296000000 =
          some [7])
    ∧ lookupEntry "k"
        (putEntry "k" (CacheEntry.mk 9 "echo" 3 [8])
          [("k", CacheEntry.mk 0 "alloy" 2 [7])]) =
        some (CacheEntry.mk 9 "echo" 3 [8]) := by
  refine ⟨?_, ?_, ?_⟩
  · exact (claim_C5 [("k", CacheEntry.mk 0 "alloy" 2 [7])] "k"
      (CacheEntry.mk 0 "alloy" 2 [7]) (CacheEntry.mk 9 "echo" 3 [8])
      1296000000 rfl).1 (by norm_num)
  · exact (claim_C5 [("k", CacheEntry.mk 1209600000 "alloy" 2 [7])] "k"
      (CacheEntry.mk 1209600000 "alloy" 2 [7]) (CacheEntry.mk 9 "echo" 3 [8])
      1296000000 rfl).2.1 (by norm_num)
  · exact (claim_C5 [("k", CacheEntry.mk 0 "alloy" 2 [7])] "k"
      (CacheEntry.mk 0 "alloy" 2 [7]) (CacheEntry.mk 9 "echo" 3 [8])
      1296000000 rfl).2.2

/-- C7 counterexample: the claim quantifies over "any voiceId not among
the six built-ins (alloy, echo, fable, onyx, nova, shimmer)" — but the
lookup lowercases the id first, so the id "Alloy", which is not among
those six strings, returns the alloy profile rather than the designated
default. -/
theorem claim_C7_counterexample :
    getVoiceCharacteristics "Alloy" ≠ defaultCharacteristics
    ∧ "Alloy" ∉ ["alloy", "echo", "fable", "onyx", "nova", "shimmer"] := by
  refine ⟨?_, by decide⟩
  intro h
  have hbase : (getVoiceCharacteristics "Alloy").baseFrequency = 175 := rfl
  rw [h] at hbase
  norm_num [defaultCharacteristics] at hbase

/-- C7 (amended): voice-profile lookup is case-insensitive; any voiceId
whose lowercased form is not among the six built-in ids yields the
designated default profile (base frequency 160 Hz, formants
500/1500/2500 Hz with gains 1.0/0.5/0.25, emphasis 1.2, breathiness
0.1, syllable rate 4.0).  It is a total function, so it never raises. -/
theorem claim_C7_amended (voiceId : String)
    (h : jsToLower voiceId ∉ ["alloy", "echo", "fable", "onyx", "nova", "shimmer"]) :
    getVoiceCharacteristics voiceId = defaultCharacteristics
    ∧ defaultCharacteristics.baseFrequency = 160
    ∧ defaultCharacteristics.formants =
        [⟨500, 1, "sine"⟩, ⟨1500, 1/2, "sine"⟩, ⟨2500, 1/4, "sine"⟩]
    ∧ defaultCharacteristics.emphasis = 12/10
    ∧ defaultCharacteristics.breathiness = 1/10
    ∧ defaultCharacteristics.syllableRate = 4 := by
  refine ⟨?_, rfl, rfl, rfl, rfl, rfl⟩
  unfold getVoiceCharacteristics
  split <;> simp_all

/-- C7 witness: an unknown id maps to the default profile. -/
theorem claim_C7_witness :
    getVoiceCharacteristics "robot" = defaultCharacteristics :=
  (claim_C7_amended "robot" (by decide)).1

/-- C10: when the hook is disabled or the audio subsystem failed to
initialize, `speak` returns immediately with no observable effect at
all — the state (including any in-flight playback, the cache, and the
`isSpeaking`/`isLoading`/`error` fields) is unchanged and the event
trace is empty. -/
theorem claim_C10 (env : SpeakEnv) (options : TTSOptions) (available : Bool)
    (st : OrchestratorState) (text : String)
    (h : options.enabled = false ∨ available = false) :
    speak env options available st text = (st, []) := by
  unfold speak
  rcases h with h | h <;> rw [h] <;> simp

/-- C10 witness: a disabled call leaves a playing state untouched. -/
theorem claim_C10_witness :
    speak (SpeakEnv.mk 5 true true true true
        (SynthEnv.mk 8 true true true true (fun _ => 0) (fun _ => 0)))
      (TTSOptions.mk false "alloy" 1) true
      (OrchestratorState.mk (some []) [] (AudioElement.mk (some [1]) false 2)
        false true false none)
      "Hello." =
      (OrchestratorState.mk (some []) [] (AudioElement.mk (some [1]) false 2)
        false true false none, []) :=
  claim_C10 _ _ _ _ _ (Or.inl rfl)

/-- C6 counterexample: the claim that `speak` on text reducing to
empty causes "no observable state change" is false, because the
implicit `stop()` runs before the empty check.  Starting from a state
with audio playing (`isSpeaking = true`, audio element unpaused at
position 2), speaking the inline-code-only text (a backtick, x, a
backtick) leaves a different state: playback was stopped. -/
theorem claim_C6_counterexample :
    (speak
        (SpeakEnv.mk 5 true true true true
          (SynthEnv.mk 8 true true true true (fun _ => 0) (fun _ => 0)))
        (TTSOptions.mk true "alloy" 1) true
        (OrchestratorState.mk (some []) []
          (AudioElement.mk (some [1, 2]) false 2) false true false none)
        (String.mk ['`', 'x', '`'])).1 ≠
      OrchestratorState.mk (some []) []
        (AudioElement.mk (some [1, 2]) false 2) false true false none := by
  intro h
  have hspeaking : (speak
      (SpeakEnv.mk 5 true true true true
        (SynthEnv.mk 8 true true true true (fun _ => 0) (fun _ => 0)))
      (TTSOptions.mk true "alloy" 1) true
      (OrchestratorState.mk (some []) []
        (AudioElement.mk (some [1, 2]) false 2) false true false none)
      (String.mk ['`', 'x', '`'])).1.isSpeaking = false := rfl
  rw [h] at hspeaking
  exact Bool.noConfusion hspeaking

/-- C6 (amended): when the input reduces to the empty string after
markdown stripping, `speak` performs no cache interaction, no
synthesis, sets no error, and makes no state change beyond the implicit
`stop()` of any current playback (which runs before the empty check):
the result is exactly the stopped state with a lone stop event, and the
stop touches neither the cache, the stats, the error field, nor
`isLoading`. -/
theorem claim_C6_amended (env : SpeakEnv) (options : TTSOptions)
    (st : OrchestratorState) (text : String)
    (h1 : options.enabled = true) (h2 : cleanMarkdown text = "") :
    speak env options true st text = (stopPlayback st, [Action.stopped])
    ∧ (stopPlayback st).cacheDB = st.cacheDB
    ∧ (stopPlayback st).stats = st.stats
    ∧ (stopPlayback st).error = st.error
    ∧ (stopPlayback st).isLoading = st.isLoading := by
  refine ⟨?_, rfl, rfl, rfl, rfl⟩
  unfold speak
  rw [h1, h2]
  simp

/-- C6 witness: the amended theorem at a concrete playing state and a
code-fence-only text. -/
theorem claim_C6_witness :
    speak
        (SpeakEnv.mk 5 true true true true
          (SynthEnv.mk 8 true true true true (fun _ => 0) (fun _ => 0)))
        (TTSOptions.mk true "alloy" 1) true
        (OrchestratorState.mk (some []) []
          (AudioElement.mk (some [1, 2]) false 2) false true false none)
        " ``` code ``` " =
      (stopPlayback
        (OrchestratorState.mk (some []) []
          (AudioElement.mk (some [1, 2]) false 2) false true false none),
        [Action.stopped]) :=
  (claim_C6_amended _ _ _ " ``` code ``` " rfl (by decide)).1

/-- C8: issuing `speak` while a previous utterance is in flight stops
the previous playback first — the event trace of every enabled `speak`
begins with the stop event, and the stop pauses the audio element,
resets its position to the start, cancels any in-flight native-engine
utterance, and clears `isSpeaking` — before any new playback begins
(the single audio element makes at most one utterance audible). -/
theorem claim_C8 (env : SpeakEnv) (options : TTSOptions)
    (st : OrchestratorState) (text : String)
    (h1 : options.enabled = true) (h2 : st.isSpeaking = true) :
    (speak env options true st text).2.head? = some Action.stopped
    ∧ (stopPlayback st).audio.paused = true
    ∧ (stopPlayback st).audio.currentTime = 0
    ∧ (stopPlayback st).nativeSpeaking = false
    ∧ (stopPlayback st).isSpeaking = false := by
  refine ⟨?_, rfl, rfl, rfl, rfl⟩
  unfold speak
  rw [h1]
  simp only [Bool.not_true, Bool.or_self, Bool.false_eq_true, if_false]
  split
  · rfl
  · split <;> try split
    all_goals rfl

/-- C8 witness: a concrete call over an in-flight playing state. -/
theorem claim_C8_witness :
    (speak
        (SpeakEnv.mk 5 true true true true
          (SynthEnv.mk 8 true true true true (fun _ => 0) (fun _ => 0)))
        (TTSOptions.mk true "alloy" 1) true
        (OrchestratorState.mk (some []) []
          (AudioElement.mk (some [1, 2]) false 2) false true false none)
        "Hello.").2.head? = some Action.stopped :=
  (claim_C8 _ _ _ "Hello." rfl rfl).1

theorem stopPlayback_cacheDB (st : OrchestratorState) :
    (stopPlayback st).cacheDB = st.cacheDB := rfl

theorem playAudioBuffer_payload (env : SpeakEnv) (st : OrchestratorState)
    (b : List ℕ) : playedPayload (playAudioBuffer env st b).2 = some b := by
  unfold playAudioBuffer
  split
  · rfl
  · split <;> rfl

theorem playAudioBuffer_synthCount (env : SpeakEnv) (st : OrchestratorState)
    (b : List ℕ) : synthesisCount (playAudioBuffer env st b).2 = 0 := by
  unfold playAudioBuffer
  split
  · rfl
  · split <;> rfl

theorem playAudioBuffer_cacheDB (env : SpeakEnv) (st : OrchestratorState)
    (b : List ℕ) : (playAudioBuffer env st b).1.cacheDB = st.cacheDB := by
  unfold playAudioBuffer
  split
  · rfl
  · split <;> rfl

theorem playAudioBuffer_stats (env : SpeakEnv) (st : OrchestratorState)
    (b : List ℕ) : (playAudioBuffer env st b).1.stats = st.stats := by
  unfold playAudioBuffer
  split
  · rfl
  · split <;> rfl

theorem getFromCache_hit (readOk : Bool)
    (db : Option (List (String × CacheEntry))) (key : String) (now : ℤ)
    (entries : List (String × CacheEntry)) (e : CacheEntry)
    (hro : readOk = true) (hdb : db = some entries)
    (hfind : lookupEntry key entries = some e)
    (hf : now - e.timestamp < 14 * 24 * 60 * 60 * 1000) :
    getFromCache readOk db key now = some e.audioData := by
  subst hro hdb
  simp only [getFromCache, if_true, hfind]
  rw [if_pos hf]

theorem speak_cache_hit (env : SpeakEnv) (options : TTSOptions)
    (st : OrchestratorState) (text : String) (b : List ℕ)
    (h1 : options.enabled = true) (hne : cleanMarkdown text ≠ "")
    (hget : getFromCache env.cacheReadOk st.cacheDB
      (generateCacheKey (cleanMarkdown text) options.voice) env.now = some b) :
    speak env options true st text =
      ({ (playAudioBuffer env { stopPlayback st with error := none } b).1
          with isLoading := false },
        Action.stopped ::
          Action.cacheRead (generateCacheKey (cleanMarkdown text) options.voice) ::
          (playAudioBuffer env { stopPlayback st with error := none } b).2) := by
  simp only [speak, h1, Bool.not_true, Bool.or_self, Bool.false_eq_true,
    if_false, eq_false hne, ite_false, stopPlayback_cacheDB, hget]

/-- C4: once the cache holds a fresh entry for the cleaned text and
voice, an enabled `speak` plays exactly the cached bytes with zero
synthesis-stage work (the encoder is only ever invoked from inside the
synthesis stage, so it is not invoked either) and leaves the cache and
stats untouched; a second call with identical arguments therefore plays
a byte-identical payload, again with zero synthesis-stage work. -/
theorem claim_C4 (env₁ env₂ : SpeakEnv) (options : TTSOptions)
    (st : OrchestratorState) (text : String)
    (entries : List (String × CacheEntry)) (e : CacheEntry)
    (hen : options.enabled = true)
    (hne : cleanMarkdown text ≠ "")
    (hdb : st.cacheDB = some entries)
    (hfind : lookupEntry (generateCacheKey (cleanMarkdown text) options.voice)
      entries = some e)
    (hr1 : env₁.cacheReadOk = true) (hr2 : env₂.cacheReadOk = true)
    (hf1 : env₁.now - e.timestamp < 14 * 24 * 60 * 60 * 1000)
    (hf2 : env₂.now - e.timestamp < 14 * 24 * 60 * 60 * 1000) :
    playedPayload (speak env₁ options true st text).2 = some e.audioData
    ∧ synthesisCount (speak env₁ options true st text).2 = 0
    ∧ (speak env₁ options true st text).1.cacheDB = st.cacheDB
    ∧ (speak env₁ options true st text).1.stats = st.stats
    ∧ playedPayload
        (speak env₂ options true (speak env₁ options true st text).1 text).2 =
        some e.audioData
    ∧ synthesisCount
        (speak env₂ options true (speak env₁ options true st text).1 text).2 = 0
    ∧ (speak env₂ options true (speak env₁ options true st text).1 text).1.cacheDB
        = st.cacheDB := by
  have hget1 := getFromCache_hit env₁.cacheReadOk st.cacheDB
    (generateCacheKey (cleanMarkdown text) options.voice) env₁.now entries e
    hr1 hdb hfind hf1
  have hs1 := speak_cache_hit env₁ options st text e.audioData hen hne hget1
  have hdb1 : (speak env₁ options true st text).1.cacheDB = st.cacheDB := by
    rw [hs1]
    show (playAudioBuffer env₁ { stopPlayback st with error := none }
      e.audioData).1.cacheDB = st.cacheDB
    rw [playAudioBuffer_cacheDB]
    rfl
  have hget2 := getFromCache_hit env₂.cacheReadOk
    (speak env₁ options true st text).1.cacheDB
    (generateCacheKey (cleanMarkdown text) options.voice) env₂.now entries e
    hr2 (by rw [hdb1, hdb]) hfind hf2
  have hs2 := speak_cache_hit env₂ options (speak env₁ options true st text).1
    text e.audioData hen hne hget2
  refine ⟨?_, ?_, hdb1, ?_, ?_, ?_, ?_⟩
  · rw [hs1]
    show playedPayload (playAudioBuffer env₁
      { stopPlayback st with error := none } e.audioData).2 = some e.audioData
    exact playAudioBuffer_payload _ _ _
  · rw [hs1]
    have hp := playAudioBuffer_synthCount env₁
      { stopPlayback st with error := none } e.audioData
    simp only [synthesisCount] at hp ⊢
    simp [List.countP_cons, hp]
  · rw [hs1]
    show (playAudioBuffer env₁ { stopPlayback st with error := none }
      e.audioData).1.stats = st.stats
    rw [playAudioBuffer_stats]
    rfl
  · rw [hs2]
    show playedPayload (playAudioBuffer env₂
      { stopPlayback (speak env₁ options true st text).1 with error := none }
      e.audioData).2 = some e.audioData
    exact playAudioBuffer_payload _ _ _
  · rw [hs2]
    have hp := playAudioBuffer_synthCount env₂
      { stopPlayback (speak env₁ options true st text).1 with error := none }
      e.audioData
    simp only [synthesisCount] at hp ⊢
    simp [List.countP_cons, hp]
  · rw [hs2]
    show (playAudioBuffer env₂
      { stopPlayback (speak env₁ options true st text).1 with error := none }
      e.audioData).1.cacheDB = st.cacheDB
    rw [playAudioBuffer_cacheDB]
    exact hdb1

/-- C4 witness: a concrete state whose cache already holds the entry
for cleaned text "Hi" and voice "alloy": both calls play the stored
bytes [7, 7] with zero synthesis work. -/
theorem claim_C4_witness :
    playedPayload (speak
        (SpeakEnv.mk 5 true true true true
          (SynthEnv.mk 8 true true true true (fun _ => 0) (fun _ => 0)))
        (TTSOptions.mk true "alloy" 1) true
        (OrchestratorState.mk
          (some [("alloy_2337_Hi", CacheEntry.mk 0 "alloy" 2 [7, 7])]) []
          (AudioElement.mk none true 0) false false false none)
        "Hi").2 = some [7, 7]
    ∧ synthesisCount (speak
        (SpeakEnv.mk 5 true true true true
          (SynthEnv.mk 8 true true true true (fun _ => 0) (fun _ => 0)))
        (TTSOptions.mk true "alloy" 1) true
        (OrchestratorState.mk
          (some [("alloy_2337_Hi", CacheEntry.mk 0 "alloy" 2 [7, 7])]) []
          (AudioElement.mk none true 0) false false false none)
        "Hi").2 = 0 := by
  obtain ⟨h1, h2, -, -, -, -, -⟩ :=
    claim_C4
      (SpeakEnv.mk 5 true true true true
        (SynthEnv.mk 8 true true true true (fun _ => 0) (fun _ => 0)))
      (SpeakEnv.mk 6 true true true true
        (SynthEnv.mk 8 true true true true (fun _ => 0) (fun _ => 0)))
      (TTSOptions.mk true "alloy" 1)
      (OrchestratorState.mk
        (some [("alloy_2337_Hi", CacheEntry.mk 0 "alloy" 2 [7, 7])]) []
        (AudioElement.mk none true 0) false false false none)
      "Hi" [("alloy_2337_Hi", CacheEntry.mk 0 "alloy" 2 [7, 7])]
      (CacheEntry.mk 0 "alloy" 2 [7, 7])
      rfl (by decide) rfl (by decide) rfl rfl (by norm_num) (by norm_num)
  exact ⟨h1, h2⟩

end WhatDocsTTS
